import Mathlib

/-!
Shallow embedding of the `netauto` network-configuration automation package
(modules `secrets_manager.py`, `connect.py`, `validators.py`, `tasks.py`).

External effects (the Netmiko SSH library, the Jinja2 template renderer, the
process environment, the filesystem, wall-clock time) are modelled as explicit
"world" parameters describing the outcome of each external call; everything
else is translated directly from the Python source.  Python exceptions are
modelled by the `Except` monad with an explicit error class (`PyError`);
Python truthiness of optional strings / lists / dicts is modelled explicitly.
-/

namespace NetAuto

/-- Python truthiness of an `Optional[str]`: `None` and `""` are falsy. -/
def optStrTruthy : Option String → Bool
  | none => false
  | some s => !(s == "")

/-- Template variables (`Dict[str, Any]`), modelled as an association list;
only truthiness and identity matter to the orchestration code. -/
abbrev TVars := List (String × String)

/-- Python truthiness of an `Optional[dict]` / `Optional[list]`:
`None` and the empty collection are falsy. -/
def optListTruthy {α : Type} : Option (List α) → Bool
  | none => false
  | some l => !l.isEmpty

/-- Python exception classes raised inside the per-device pipeline.
`keyError k` carries the missing key (its `str()` is the quoted key). -/
inductive PyError
  | deviceConnectionError (msg : String)
  | validationError (msg : String)
  | valueError (msg : String)
  | keyError (key : String)
  | otherError (msg : String)
deriving DecidableEq

/-- Embedding of `str(e)` for the modelled exceptions. -/
def PyError.str : PyError → String
  | .deviceConnectionError m => m
  | .validationError m => m
  | .valueError m => m
  | .keyError k => "\x27" ++ k ++ "\x27"
  | .otherError m => m

/-- Embedding of `isinstance(e, DeviceConnectionError)`. -/
def PyError.isConnectionKind : PyError → Bool
  | .deviceConnectionError _ => true
  | _ => false

/-- Embedding of `isinstance(e, ValidationError)`. -/
def PyError.isValidationKind : PyError → Bool
  | .validationError _ => true
  | _ => false

/-- The process environment variables read by `SecretsManager`. -/
structure Env where
  deviceUsername : Option String
  devicePassword : Option String
  deviceEnableSecret : Option String

/-- The credentials dictionary built by
`SecretsManager.get_device_credentials`; the `secret` key is present only
when the enable secret is truthy. -/
structure Credentials where
  username : String
  password : String
  secret : Option String
deriving DecidableEq

/-- Message of the `ValueError` raised for missing credentials
(`secrets_manager.py`, lines 59-63). -/
def missingCredsMsg : String :=
  "Missing required credentials. Please set DEVICE_USERNAME and DEVICE_PASSWORD environment variables."

/-- Embedding of `SecretsManager.get_device_credentials` (`secrets_manager.py`, lines 44-73). -/
def get_device_credentials (env : Env) : Except PyError Credentials :=
  if !optStrTruthy env.deviceUsername || !optStrTruthy env.devicePassword then
    .error (.valueError missingCredsMsg)
  else
    .ok { username := env.deviceUsername.getD ""
        , password := env.devicePassword.getD ""
        , secret := if optStrTruthy env.deviceEnableSecret then env.deviceEnableSecret else none }

/-- Behaviour of one live Netmiko connection object: the outcome of each
library call, keyed by its main argument.  (Auxiliary arguments such as
`expect_string` and `delay_factor` are forwarded to the library unchanged and
do not influence the orchestration logic, so they are not modelled.) -/
structure NetmikoConn where
  sendCommandOutcome : String → Except PyError String
  sendConfigSetOutcome : List String → Except PyError String
  saveConfigOutcome : Except PyError String
  isAliveOutcome : Bool

/-- Outcome of the `try` block of `NetworkDevice.connect` (`connect.py`,
lines 92-101): either a live connection, or one of the exception classes
distinguished by its `except` clauses. -/
inductive ConnectOutcome
  | success (conn : NetmikoConn)
  | timeoutExc (msg : String)
  | authExc (msg : String)
  | sshExc (msg : String)
  | unexpectedExc (msg : String)

/-- Embedding of `NetworkDevice` (`connect.py`): connection parameters plus the
`connection` attribute (`None` when no session is open). -/
structure NetworkDevice where
  host : String
  device_type : String
  port : Nat
  username : String
  password : String
  secret : Option String
  connection : Option NetmikoConn

/-- Python `a or b` on optional strings. -/
def pyOrStr (a b : Option String) : Option String :=
  if optStrTruthy a then a else b

/-- The `device_info` dictionary handed to the task layer: each key may be
absent.  `device_info["host"]` raises `KeyError` when the key is absent. -/
structure DeviceInfoDict where
  host : Option String
  device_type : Option String
  port : Option Nat
  username : Option String
  password : Option String
  secret : Option String
deriving DecidableEq, Inhabited

/-- Construction of a `NetworkDevice` as performed by `configure_device` /
`backup_single_device` (`tasks.py`, lines 79-86 and 275-281: the
`device_info["host"]` lookup, which may raise `KeyError`) followed by
`NetworkDevice.__init__` (`connect.py`, lines 49-67: credential fallback to
the process-wide secrets source, which may raise `ValueError`). -/
def NetworkDevice.init (info : DeviceInfoDict) (env : Env) : Except PyError NetworkDevice :=
  match info.host with
  | none => .error (.keyError "host")
  | some h =>
    if !optStrTruthy info.username || !optStrTruthy info.password then
      match get_device_credentials env with
      | .error e => .error e
      | .ok secrets =>
        .ok { host := h
            , device_type := info.device_type.getD "cisco_ios"
            , port := info.port.getD 22
            , username := (pyOrStr info.username (some secrets.username)).getD ""
            , password := (pyOrStr info.password (some secrets.password)).getD ""
            , secret := pyOrStr info.secret secrets.secret
            , connection := none }
    else
      .ok { host := h
          , device_type := info.device_type.getD "cisco_ios"
          , port := info.port.getD 22
          , username := info.username.getD ""
          , password := info.password.getD ""
          , secret := info.secret
          , connection := none }

/-- Embedding of `NetworkDevice.connect` (`connect.py`, lines 69-121): on success stores
the live connection; every exception class is wrapped into a
`DeviceConnectionError` with a class-specific message. -/
def NetworkDevice.connect (d : NetworkDevice) (out : ConnectOutcome) :
    Except PyError NetworkDevice :=
  match out with
  | .success conn => .ok { d with connection := some conn }
  | .timeoutExc m =>
      .error (.deviceConnectionError ("Connection timeout to " ++ d.host ++ ": " ++ m))
  | .authExc m =>
      .error (.deviceConnectionError ("Authentication failed for " ++ d.host ++ ": " ++ m))
  | .sshExc m =>
      .error (.deviceConnectionError ("SSH error connecting to " ++ d.host ++ ": " ++ m))
  | .unexpectedExc m =>
      .error (.deviceConnectionError ("Unexpected error connecting to " ++ d.host ++ ": " ++ m))

/-- Embedding of `NetworkDevice.disconnect` (`connect.py`, lines 123-132): a no-op without
a live connection; otherwise any error from the library call is caught and
the `finally` clause resets `connection` to `None`.  It never raises. -/
def NetworkDevice.disconnect (d : NetworkDevice) : NetworkDevice :=
  match d.connection with
  | none => d
  | some _ => { d with connection := none }

/-- Embedding of `NetworkDevice.send_command` (`connect.py`, lines 134-170). -/
def NetworkDevice.send_command (d : NetworkDevice) (command : String) :
    Except PyError String :=
  match d.connection with
  | none => .error (.deviceConnectionError ("Not connected to " ++ d.host))
  | some conn =>
    match conn.sendCommandOutcome command with
    | .ok output => .ok output
    | .error e =>
        .error (.deviceConnectionError
          ("Error executing command on " ++ d.host ++ ": " ++ e.str))

/-- Embedding of `NetworkDevice.send_config_set` (`connect.py`, lines 172-208). -/
def NetworkDevice.send_config_set (d : NetworkDevice) (config_commands : List String) :
    Except PyError String :=
  match d.connection with
  | none => .error (.deviceConnectionError ("Not connected to " ++ d.host))
  | some conn =>
    match conn.sendConfigSetOutcome config_commands with
    | .ok output => .ok output
    | .error e =>
        .error (.deviceConnectionError
          ("Error applying configuration on " ++ d.host ++ ": " ++ e.str))

/-- Embedding of `NetworkDevice.save_config` (`connect.py`, lines 245-257): raises
`DeviceConnectionError` when not connected; the underlying library call is
NOT wrapped, so its errors propagate with their own class. -/
def NetworkDevice.save_config (d : NetworkDevice) : Except PyError String :=
  match d.connection with
  | none => .error (.deviceConnectionError ("Not connected to " ++ d.host))
  | some conn => conn.saveConfigOutcome

/-- Embedding of `NetworkDevice.is_alive` (`connect.py`, lines 259-268). -/
def NetworkDevice.is_alive (d : NetworkDevice) : Bool :=
  match d.connection with
  | none => false
  | some conn => conn.isAliveOutcome

/-! ### Regex search primitives used by `validators.py`

The three patterns used by the validator — `hostname (\S+)`, `Version (\S+)`,
`uptime is (.+)`, and `Success rate is (\d+) percent` — all consist of a
literal, a greedy one-or-more character-class group, and (for the ping
pattern) a trailing literal.  `re.search` returns the leftmost match. -/

/-- Strip a literal from the front of a character list, or fail. -/
def stripLitFront : List Char → List Char → Option (List Char)
  | [], s => some s
  | _ :: _, [] => none
  | a :: as, b :: bs => if a = b then stripLitFront as bs else none

/-- Match `lit(C+)` at the current position, where `C` is the character class
decided by `p`, matched greedily with nothing following the group.  Returns
the captured group. -/
def matchGroupAt (lit : List Char) (p : Char → Bool) (s : List Char) :
    Option (List Char) :=
  match stripLitFront lit s with
  | none => none
  | some rest =>
    let g := rest.takeWhile p
    if g.isEmpty then none else some g

/-- Embedding of `re.search` for `lit(C+)`: the leftmost position where the pattern
matches, returning group 1. -/
def searchGroup (lit : List Char) (p : Char → Bool) : List Char → Option (List Char)
  | [] => matchGroupAt lit p []
  | c :: cs =>
    match matchGroupAt lit p (c :: cs) with
    | some g => some g
    | none => searchGroup lit p cs

/-- Decimal value of a digit string (`int(match.group(1))`). -/
def digitsVal (ds : List Char) : Nat :=
  ds.foldl (fun n c => 10 * n + (c.toNat - 48)) 0

/-- Match `Success rate is (\d+) percent` at the current position, returning
the parsed percentage. -/
def matchPingAt (s : List Char) : Option Nat :=
  match stripLitFront "Success rate is ".data s with
  | none => none
  | some rest =>
    let ds := rest.takeWhile Char.isDigit
    if ds.isEmpty then none
    else
      match stripLitFront " percent".data (rest.drop ds.length) with
      | none => none
      | some _ => some (digitsVal ds)

/-- Embedding of `re.search(r"Success rate is (\d+) percent", output)` followed by
`int(match.group(1))`: leftmost match. -/
def searchPing : List Char → Option Nat
  | [] => matchPingAt []
  | c :: cs =>
    match matchPingAt (c :: cs) with
    | some v => some v
    | none => searchPing cs

/-- The character class `\S` (non-whitespace). -/
def nonWhitespace (c : Char) : Bool := !c.isWhitespace

/-- The character class `.` (anything but a newline). -/
def notNewline (c : Char) : Bool := !(c == '\n')

/-! ### `ConfigValidator` (`validators.py`) -/

/-- Embedding of `ConfigValidator.verify_connectivity` (`validators.py`, lines 33-53).
The `ValidationError` raised inside the `try` block is itself caught by the
blanket `except Exception` clause and re-wrapped, which is why the message is
nested. -/
def verify_connectivity (d : NetworkDevice) : Except PyError Bool :=
  if !d.is_alive then
    .error (.validationError
      ("Connectivity check failed for " ++ d.host ++ ": Device " ++ d.host
        ++ " is not reachable"))
  else .ok true

/-- Embedding of `ConfigValidator.verify_ip_connectivity` (`validators.py`, lines 136-178):
ping the target, parse the success rate, require at least 80 percent.
`DeviceConnectionError` from the command is re-raised as `ValidationError`;
the `ValidationError`s raised inside the `try` block are not caught by the
`except DeviceConnectionError` clause. -/
def verify_ip_connectivity (d : NetworkDevice) (target_ip : String) (count : Nat) :
    Except PyError Bool :=
  match d.send_command ("ping " ++ target_ip ++ " repeat " ++ toString count) with
  | .error (.deviceConnectionError m) => .error (.validationError m)
  | .error e => .error e
  | .ok output =>
    match searchPing output.data with
    | some success_rate =>
      if 80 ≤ success_rate then .ok true
      else
        .error (.validationError
          ("Ping to " ++ target_ip ++ " failed (" ++ toString success_rate
            ++ "%) from " ++ d.host))
    | none =>
        .error (.validationError
          ("Could not parse ping results for " ++ target_ip ++ " from " ++ d.host))

/-- The device-information dictionary built by `get_device_info`. -/
structure DeviceInfo where
  hostname : String
  version : String
  uptime : String
  device_type : String
  host : String
deriving DecidableEq

/-- Return value of `get_device_info`: either the filled dictionary or the
empty dictionary returned by its blanket `except` clause. -/
inductive DeviceInfoResult
  | info (i : DeviceInfo)
  | empty
deriving DecidableEq

/-- Embedding of `ConfigValidator.get_device_info` (`validators.py`, lines 209-245): runs
two show commands, extracts hostname / version / uptime best-effort with
`"Unknown"` defaults; any exception (in particular a failed underlying
command) is caught and the empty dictionary is returned. -/
def get_device_info (d : NetworkDevice) : DeviceInfoResult :=
  match d.send_command "show version" with
  | .error _ => .empty
  | .ok version_output =>
    match d.send_command "show running-config | include hostname" with
    | .error _ => .empty
    | .ok hostname_output =>
      let hostname :=
        match searchGroup "hostname ".data nonWhitespace hostname_output.data with
        | some g => String.mk g
        | none => "Unknown"
      let version :=
        match searchGroup "Version ".data nonWhitespace version_output.data with
        | some g => String.mk g
        | none => "Unknown"
      let uptime :=
        match searchGroup "uptime is ".data notNewline version_output.data with
        | some g => String.mk g
        | none => "Unknown"
      .info { hostname := hostname, version := version, uptime := uptime
            , device_type := d.device_type, host := d.host }

/-! ### `ConfigurationTask` (`tasks.py`)

`configure_device` is instrumented with a trace of the external calls it
makes (session operations and template rendering), so that "operation X is
(never) invoked" properties can be stated.  Events are recorded at exactly
the call sites of the Python body. -/

/-- Embedding of `ConfigurationTask.__init__` state (`tasks.py`, lines 22-43); the
template manager and logger are external collaborators. -/
structure ConfigurationTask where
  devices : List DeviceInfoDict
  dry_run : Bool

/-- The behaviour of the external world for one device operation: the
process environment, the outcome of the SSH connect attempt (carrying the
live session's behaviour on success), and the template renderer
(`TemplateManager.render_template`: rendered text or a raised error). -/
structure DeviceWorld where
  env : Env
  connectOutcome : ConnectOutcome
  render : String → TVars → Except PyError String

/-- External calls made by `configure_device`, in order. -/
inductive SessionEvent
  | connectCall
  | renderCall (name : String) (vars : TVars)
  | sendConfigSetCall (commands : List String)
  | saveConfigCall
  | verifyConnectivityCall
  | getDeviceInfoCall
  | disconnectCall
deriving DecidableEq

/-- The per-device result dictionary (`tasks.py`, lines 69-75).
`validation` is `none` while the dictionary is `{}` and `some (b, info)`
once lines 122-125 have filled it. -/
structure OperationResult where
  host : String
  success : Bool
  message : String
  output : String
  validation : Option (Bool × DeviceInfoResult)
deriving DecidableEq, Inhabited

/-- Truthiness of the `template_vars` optional dict. -/
def optTVarsTruthy (tv : Option TVars) : Bool :=
  match tv with
  | none => false
  | some vs => !vs.isEmpty

/-- Lines 92-101 of `tasks.py`: render the template only when BOTH the
template name and the variable mapping are truthy, replacing
`config_commands`; otherwise `config_commands` is left as passed in. -/
def prepareStage (w : DeviceWorld) (config_commands : Option (List String))
    (template_name : Option String) (template_vars : Option TVars) :
    Except PyError (Option (List String)) × List SessionEvent :=
  if optStrTruthy template_name && optTVarsTruthy template_vars then
    let name := template_name.getD ""
    let vars := template_vars.getD []
    (match w.render name vars with
     | .ok config_text => .ok (some (config_text.trim.splitOn "\n"))
     | .error e => .error e,
     [.renderCall name vars])
  else (.ok config_commands, [])

/-- Lines 103-116 of `tasks.py`: in dry-run mode only the fixed marker
string is recorded; otherwise the config batch is sent and optionally the
configuration is saved, appending the save output.  An error carries the
result dictionary as mutated so far. -/
def applyStage (task : ConfigurationTask) (d : NetworkDevice)
    (cmds : List String) (save_config : Bool) (r0 : OperationResult) :
    Except (OperationResult × PyError) OperationResult × List SessionEvent :=
  if task.dry_run then
    (.ok { r0 with output := "DRY RUN - No changes applied" }, [])
  else
    match d.send_config_set cmds with
    | .error e => (.error (r0, e), [.sendConfigSetCall cmds])
    | .ok output =>
      let r1 := { r0 with output := output }
      if save_config then
        match d.save_config with
        | .error e => (.error (r1, e), [.sendConfigSetCall cmds, .saveConfigCall])
        | .ok save_output =>
            (.ok { r1 with output := r1.output ++ "\n" ++ save_output },
             [.sendConfigSetCall cmds, .saveConfigCall])
      else (.ok r1, [.sendConfigSetCall cmds])

/-- Lines 119-125 of `tasks.py`: post-configuration validation.  The
validation dictionary's values are evaluated in order; a raised
`ValidationError` from `verify_connectivity` leaves the result's
`validation` field untouched. -/
def validationStage (task : ConfigurationTask) (d : NetworkDevice)
    (validate_after : Bool) (r : OperationResult) :
    Except (OperationResult × PyError) OperationResult × List SessionEvent :=
  if validate_after && !task.dry_run then
    match verify_connectivity d with
    | .error e => (.error (r, e), [.verifyConnectivityCall])
    | .ok b =>
        (.ok { r with validation := some (b, get_device_info d) },
         [.verifyConnectivityCall, .getDeviceInfoCall])
  else (.ok r, [])

/-- The result dictionary as initialised on lines 68-75 of `tasks.py`. -/
def baseResult (device_info : DeviceInfoDict) : OperationResult :=
  { host := device_info.host.getD "unknown", success := false, message := ""
  , output := "", validation := none }

/-- The `try` block of `configure_device` (`tasks.py`, lines 77-132),
together with the trace of external calls it makes.  An error carries the
result dictionary as mutated up to the point of the raise; note that
`device.disconnect()` (line 128) is reached only when every prior stage
succeeded. -/
def configureTry (task : ConfigurationTask) (w : DeviceWorld)
    (device_info : DeviceInfoDict) (config_commands : Option (List String))
    (template_name : Option String) (template_vars : Option TVars)
    (save_config : Bool) (validate_after : Bool) :
    Except (OperationResult × PyError) OperationResult × List SessionEvent :=
  let r0 := baseResult device_info
  match NetworkDevice.init device_info w.env with
  | .error e => (.error (r0, e), [])
  | .ok d0 =>
    match d0.connect w.connectOutcome with
    | .error e => (.error (r0, e), [.connectCall])
    | .ok d =>
      let prep := prepareStage w config_commands template_name template_vars
      let evs1 := SessionEvent.connectCall :: prep.2
      match prep.1 with
      | .error e => (.error (r0, e), evs1)
      | .ok cmdsOpt =>
        if !optListTruthy cmdsOpt then
          (.error (r0, .valueError "No configuration commands or template provided"),
           evs1)
        else
          let cmds := cmdsOpt.getD []
          let applied := applyStage task d cmds save_config r0
          let evs2 := evs1 ++ applied.2
          match applied.1 with
          | .error re => (.error re, evs2)
          | .ok r1 =>
            let validated := validationStage task d validate_after r1
            let evs3 := evs2 ++ validated.2
            match validated.1 with
            | .error re => (.error re, evs3)
            | .ok r2 =>
                (.ok { r2 with success := true
                             , message := "Configuration applied successfully" },
                 evs3 ++ [.disconnectCall])

/-- The `except` clauses of `configure_device` (`tasks.py`, lines 134-144):
the message is prefixed according to the exception class. -/
def errorPrefixMsg : PyError → String
  | .deviceConnectionError m => "Connection error: " ++ m
  | .validationError m => "Validation error: " ++ m
  | e => "Error: " ++ e.str

/-- Embedding of `ConfigurationTask.configure_device` (`tasks.py`, lines 45-146): the
`try` block together with its exception handlers.  It always returns a
result dictionary (paired here with the trace of external calls). -/
def configure_device (task : ConfigurationTask) (w : DeviceWorld)
    (device_info : DeviceInfoDict) (config_commands : Option (List String))
    (template_name : Option String) (template_vars : Option TVars)
    (save_config : Bool) (validate_after : Bool) :
    OperationResult × List SessionEvent :=
  match configureTry task w device_info config_commands template_name
      template_vars save_config validate_after with
  | (.ok r, evs) => (r, evs)
  | (.error (r, e), evs) => ({ r with message := errorPrefixMsg e }, evs)

/-! ### Batch operations (`tasks.py`, lines 148-329)

The per-device external behaviour is given by a world per device index; the
wall-clock `elapsed_time` field of the summary is not modelled.  In parallel
mode the worker pool's `as_completed` iteration yields every submitted
future exactly once, in a completion order that is an arbitrary permutation
of the submission order; that order is an explicit parameter here. -/

/-- The batch summary (`tasks.py`, lines 231-237), minus the wall-clock
`elapsed_time` field. -/
structure Summary where
  total_devices : Nat
  successful : Nat
  failed : Nat
  results : List OperationResult
deriving DecidableEq

/-- Lines 182-184 / 212-214 of `tasks.py`: the per-device template variable
selection from `template_vars_list`. -/
def tvarsFor (template_vars_list : Option (List TVars)) (idx : Nat) : Option TVars :=
  if optListTruthy template_vars_list && decide (idx < (template_vars_list.getD []).length)
  then some ((template_vars_list.getD []).getD idx [])
  else none

/-- The result of the task submitted for device `idx` (the call on lines
186-194 / 216-223 of `tasks.py`). -/
def deviceResult (task : ConfigurationTask) (w : Nat → DeviceWorld)
    (config_commands : Option (List String)) (template_name : Option String)
    (template_vars_list : Option (List TVars)) (save_config validate_after : Bool)
    (idx : Nat) : OperationResult :=
  (configure_device task (w idx) (task.devices.getD idx default) config_commands
    template_name (tvarsFor template_vars_list idx) save_config validate_after).1

/-- Lines 197-208 of `tasks.py`: collect completed futures, converting a
raised task exception into a fallback failed result for that device's host.
(The fallback dictionary omits the `output` and `validation` keys; they are
modelled as empty here.)  In this embedding `configure_device` is total, so
the error branch is exercised only for hypothetical crashing outcomes. -/
def collectCompleted (task : ConfigurationTask)
    (futureOutcome : Nat → Except String OperationResult)
    (completionOrder : List Nat) : List OperationResult :=
  completionOrder.map (fun idx =>
    match futureOutcome idx with
    | .ok result => result
    | .error e =>
      { host := (task.devices.getD idx default).host.getD "unknown"
      , success := false, message := "Task exception: " ++ e
      , output := "", validation := none })

/-- Lines 226-237 of `tasks.py`: aggregate a result list into a summary. -/
def mkSummary (task : ConfigurationTask) (results : List OperationResult) : Summary :=
  let success_count := results.countP (fun r => r.success)
  { total_devices := task.devices.length
  , successful := success_count
  , failed := results.length - success_count
  , results := results }

/-- Embedding of `ConfigurationTask.configure_multiple_devices` (`tasks.py`, lines
148-245).  `completionOrder` is the order in which `as_completed` yields the
futures in parallel mode (ignored in sequential mode). -/
def configure_multiple_devices (task : ConfigurationTask) (w : Nat → DeviceWorld)
    (config_commands : Option (List String)) (template_name : Option String)
    (template_vars_list : Option (List TVars)) (save_config validate_after : Bool)
    (parallel : Bool) (completionOrder : List Nat) : Summary :=
  let results :=
    if parallel then
      collectCompleted task
        (fun idx => .ok (deviceResult task w config_commands template_name
          template_vars_list save_config validate_after idx))
        completionOrder
    else
      (List.range task.devices.length).map
        (deviceResult task w config_commands template_name template_vars_list
          save_config validate_after)
  mkSummary task results

/-- Per-device backup result dictionary (`tasks.py`, line 272). -/
structure BackupResult where
  host : String
  success : Bool
  message : String
  file : String
deriving DecidableEq

/-- External behaviour for one device's backup: environment, connect
outcome, the timestamp string taken at write time, and the outcome of the
file write. -/
structure BackupWorld where
  env : Env
  connectOutcome : ConnectOutcome
  timestamp : String
  writeOutcome : Except PyError Unit

/-- Embedding of `backup_single_device` (`tasks.py`, lines 269-304): connect, read the
running configuration, disconnect, then write it to
`{backup_dir}/{host}_{timestamp}.cfg`; any exception is caught and reported
as a failed result. -/
def backup_single_device (backup_dir : String) (w : BackupWorld)
    (device_info : DeviceInfoDict) : BackupResult :=
  let host := device_info.host.getD "unknown"
  let r0 : BackupResult := { host := host, success := false, message := "", file := "" }
  let attempt : Except PyError String :=
    match NetworkDevice.init device_info w.env with
    | .error e => .error e
    | .ok d0 =>
      match d0.connect w.connectOutcome with
      | .error e => .error e
      | .ok d =>
        match d.send_command "show running-config" with
        | .error e => .error e
        | .ok _config =>
          let filename := host ++ "_" ++ w.timestamp ++ ".cfg"
          let file_path := backup_dir ++ "/" ++ filename
          match w.writeOutcome with
          | .error e => .error e
          | .ok _ => .ok file_path
  match attempt with
  | .ok fp =>
      { r0 with success := true, message := "Backup completed successfully", file := fp }
  | .error e => { r0 with message := "Backup failed: " ++ e.str }

/-- The backup summary (`tasks.py`, lines 320-326). -/
structure BackupSummary where
  total_devices : Nat
  successful : Nat
  failed : Nat
  backup_directory : String
  results : List BackupResult
deriving DecidableEq

/-- Embedding of `ConfigurationTask.backup_configs` (`tasks.py`, lines 247-329).  In
parallel mode the results comprehension over `as_completed(futures)` yields
one `f.result()` per submitted future, in completion order
(`completionOrder`); `backup_single_device` catches every exception, so
`f.result()` never raises. -/
def backup_configs (task : ConfigurationTask) (w : Nat → BackupWorld)
    (backup_dir : String) (parallel : Bool) (completionOrder : List Nat) :
    BackupSummary :=
  let single := fun idx =>
    backup_single_device backup_dir (w idx) (task.devices.getD idx default)
  let results :=
    if parallel then completionOrder.map single
    else (List.range task.devices.length).map single
  let success_count := results.countP (fun r => r.success)
  { total_devices := task.devices.length
  , successful := success_count
  , failed := results.length - success_count
  , backup_directory := backup_dir
  , results := results }

/-! ### Concrete fixtures used by the witnesses and counterexamples -/

/-- An environment with no device credentials set. -/
def envEmpty : Env :=
  { deviceUsername := none, devicePassword := none, deviceEnableSecret := none }

/-- A device descriptor with inline credentials. -/
def infoR1 : DeviceInfoDict :=
  { host := some "r1", device_type := none, port := none
  , username := some "admin", password := some "pw", secret := none }

/-- A device descriptor without credentials. -/
def infoNoCreds : DeviceInfoDict :=
  { host := some "r2", device_type := none, port := none
  , username := none, password := none, secret := none }

/-- A live session on which every operation succeeds. -/
def connAllOk : NetmikoConn :=
  { sendCommandOutcome := fun _ => .ok "ok-output"
  , sendConfigSetOutcome := fun _ => .ok "applied"
  , saveConfigOutcome := .ok "saved"
  , isAliveOutcome := true }

/-- A live session whose config-apply call raises. -/
def connApplyFails : NetmikoConn :=
  { connAllOk with sendConfigSetOutcome := fun _ => .error (.otherError "boom") }

/-- A world in which every external call succeeds. -/
def worldAllOk : DeviceWorld :=
  { env := envEmpty, connectOutcome := .success connAllOk
  , render := fun _ _ => .ok "rendered line" }

/-- A world in which the config-apply call raises. -/
def worldApplyFails : DeviceWorld :=
  { env := envEmpty, connectOutcome := .success connApplyFails
  , render := fun _ _ => .ok "rendered line" }

/-- A world in which the SSH connect attempt times out. -/
def worldConnectFails : DeviceWorld :=
  { env := envEmpty, connectOutcome := .timeoutExc "t"
  , render := fun _ _ => .ok "rendered line" }

/-- A one-device task (not dry-run). -/
def taskR1 : ConfigurationTask := { devices := [infoR1], dry_run := false }

/-- A one-device task in dry-run mode. -/
def taskR1Dry : ConfigurationTask := { devices := [infoR1], dry_run := true }

/-- A two-device task whose first device lacks credentials. -/
def taskTwo : ConfigurationTask :=
  { devices := [infoNoCreds, infoR1], dry_run := false }

/-- A disconnected device (used to state the idle-session properties). -/
def deviceDisc : NetworkDevice :=
  { host := "r1", device_type := "cisco_ios", port := 22, username := "admin"
  , password := "pw", secret := none, connection := none }

/-- A session whose every command returns the given output. -/
def connEcho (out : String) : NetmikoConn :=
  { connAllOk with sendCommandOutcome := fun _ => .ok out }

/-- A connected device whose every command returns the given output. -/
def devEcho (out : String) : NetworkDevice :=
  { deviceDisc with connection := some (connEcho out) }

/-- A backup world in which every external call succeeds. -/
def backupWOk : BackupWorld :=
  { env := envEmpty, connectOutcome := .success connAllOk
  , timestamp := "20250101_000000", writeOutcome := .ok () }

/-- Whether `pat` occurs as a contiguous substring of `s`. -/
def containsSub : List Char → List Char → Bool
  | [], pat => pat.isEmpty
  | c :: tl, pat => pat.isPrefixOf (c :: tl) || containsSub tl pat

/-- Whether `s` starts with the string `pre`. -/
def strHasPref (pre s : String) : Prop := ∃ rest, s = pre ++ rest

/-- The all-defaults device information mapping. -/
def unknownInfo (dt h : String) : DeviceInfo :=
  { hostname := "Unknown", version := "Unknown", uptime := "Unknown"
  , device_type := dt, host := h }

/-! ### Helper lemmas shared by the claim theorems -/

theorem countP_add_rest {α : Type} (p : α → Bool) (l : List α) :
    l.countP p + (l.length - l.countP p) = l.length :=
  Nat.add_sub_cancel' (l.countP_le_length p)

theorem counts_formula {α : Type} (p : α → Bool) (l : List α) (n : Nat)
    (h : l.length = n) :
    l.countP p + (l.length - l.countP p) = n := by
  rw [← h]
  exact countP_add_rest p l

theorem configure_device_events (task : ConfigurationTask) (w : DeviceWorld)
    (device_info : DeviceInfoDict) (cc : Option (List String)) (tn : Option String)
    (tv : Option TVars) (sc va : Bool) :
    (configure_device task w device_info cc tn tv sc va).2
      = (configureTry task w device_info cc tn tv sc va).2 := by
  unfold configure_device
  rcases hT : configureTry task w device_info cc tn tv sc va with ⟨tf, ts⟩
  cases tf with
  | ok r => simp
  | error re => rcases re with ⟨r, e⟩; simp

theorem configure_device_of_error (task : ConfigurationTask) (w : DeviceWorld)
    (device_info : DeviceInfoDict) (cc : Option (List String)) (tn : Option String)
    (tv : Option TVars) (sc va : Bool) (r : OperationResult) (e : PyError)
    (h : (configureTry task w device_info cc tn tv sc va).1 = .error (r, e)) :
    (configure_device task w device_info cc tn tv sc va).1
      = { r with message := errorPrefixMsg e } := by
  unfold configure_device
  rcases hT : configureTry task w device_info cc tn tv sc va with ⟨tf, ts⟩
  rw [hT] at h
  simp only at h
  subst h
  simp

theorem configure_device_of_ok (task : ConfigurationTask) (w : DeviceWorld)
    (device_info : DeviceInfoDict) (cc : Option (List String)) (tn : Option String)
    (tv : Option TVars) (sc va : Bool) (r : OperationResult)
    (h : (configureTry task w device_info cc tn tv sc va).1 = .ok r) :
    (configure_device task w device_info cc tn tv sc va).1 = r := by
  unfold configure_device
  rcases hT : configureTry task w device_info cc tn tv sc va with ⟨tf, ts⟩
  rw [hT] at h
  simp only at h
  subst h
  simp

theorem applyStage_error_success (task : ConfigurationTask) (d : NetworkDevice)
    (cmds : List String) (sc : Bool) (r0 r : OperationResult) (e : PyError)
    (h : (applyStage task d cmds sc r0).1 = .error (r, e)) :
    r.success = r0.success := by
  unfold applyStage at h
  repeat' split at h
  all_goals try simp_all
  all_goals first
    | rw [← h]
    | rw [← h.1]

theorem validationStage_error_success (task : ConfigurationTask) (d : NetworkDevice)
    (va : Bool) (r1 r : OperationResult) (e : PyError)
    (h : (validationStage task d va r1).1 = .error (r, e)) :
    r.success = r1.success := by
  unfold validationStage at h
  repeat' split at h
  all_goals simp_all

theorem applyStage_ok_success (task : ConfigurationTask) (d : NetworkDevice)
    (cmds : List String) (sc : Bool) (r0 r : OperationResult)
    (h : (applyStage task d cmds sc r0).1 = .ok r) :
    r.success = r0.success := by
  unfold applyStage at h
  repeat' split at h
  all_goals try simp_all
  all_goals first
    | rw [← h]
    | rw [← h.1]

theorem configureTry_error_success (task : ConfigurationTask) (w : DeviceWorld)
    (device_info : DeviceInfoDict) (cc : Option (List String)) (tn : Option String)
    (tv : Option TVars) (sc va : Bool) (r : OperationResult) (e : PyError)
    (h : (configureTry task w device_info cc tn tv sc va).1 = .error (r, e)) :
    r.success = false := by
  cases hInit : NetworkDevice.init device_info w.env with
  | error e0 =>
    simp only [configureTry, hInit] at h
    rw [Except.error.injEq, Prod.mk.injEq] at h
    rw [← h.1]
    rfl
  | ok d0 =>
    cases hConn : d0.connect w.connectOutcome with
    | error e0 =>
      simp only [configureTry, hInit, hConn] at h
      rw [Except.error.injEq, Prod.mk.injEq] at h
      rw [← h.1]
      rfl
    | ok d1 =>
      cases hPrep : (prepareStage w cc tn tv).1 with
      | error e0 =>
        simp only [configureTry, hInit, hConn, hPrep] at h
        rw [Except.error.injEq, Prod.mk.injEq] at h
        rw [← h.1]
        rfl
      | ok cmdsOpt =>
        by_cases hCmds : optListTruthy cmdsOpt
        · cases hApply : (applyStage task d1 (cmdsOpt.getD []) sc
              (baseResult device_info)).1 with
          | error re =>
            rcases re with ⟨rr, ee⟩
            simp only [configureTry, hInit, hConn, hPrep, hCmds, Bool.not_true,
              Bool.false_eq_true, if_false, hApply] at h
            rw [Except.error.injEq, Prod.mk.injEq] at h
            obtain ⟨h1, h2⟩ := h
            subst h1
            subst h2
            rw [applyStage_error_success _ _ _ _ _ _ _ hApply]
            rfl
          | ok r1 =>
            cases hVal : (validationStage task d1 va r1).1 with
            | error re =>
              rcases re with ⟨rr, ee⟩
              simp only [configureTry, hInit, hConn, hPrep, hCmds, Bool.not_true,
                Bool.false_eq_true, if_false, hApply, hVal] at h
              rw [Except.error.injEq, Prod.mk.injEq] at h
              obtain ⟨h1, h2⟩ := h
              subst h1
              subst h2
              rw [validationStage_error_success _ _ _ _ _ _ hVal]
              rw [applyStage_ok_success _ _ _ _ _ _ hApply]
              rfl
            | ok r2 =>
              simp only [configureTry, hInit, hConn, hPrep, hCmds, Bool.not_true,
                Bool.false_eq_true, if_false, hApply, hVal] at h
              simp at h
        · simp only [configureTry, hInit, hConn, hPrep,
            Bool.not_eq_true] at h
          rw [if_pos (by simp [hCmds])] at h
          rw [Except.error.injEq, Prod.mk.injEq] at h
          rw [← h.1]
          rfl

theorem renderCall_not_in_applyStage_events (task : ConfigurationTask)
    (d : NetworkDevice) (cmds : List String) (sc : Bool) (r0 : OperationResult)
    (name : String) (vars : TVars) :
    SessionEvent.renderCall name vars ∉ (applyStage task d cmds sc r0).2 := by
  unfold applyStage
  repeat' split
  all_goals simp

theorem renderCall_not_in_validationStage_events (task : ConfigurationTask)
    (d : NetworkDevice) (va : Bool) (r : OperationResult)
    (name : String) (vars : TVars) :
    SessionEvent.renderCall name vars ∉ (validationStage task d va r).2 := by
  unfold validationStage
  repeat' split
  all_goals simp

theorem configure_device_dry_literal (task : ConfigurationTask) (w : DeviceWorld)
    (info : DeviceInfoDict) (cc : Option (List String)) (tv : Option TVars)
    (sc va : Bool) (hdry : task.dry_run = true) :
    configure_device task w info cc none tv sc va
      = match NetworkDevice.init info w.env with
        | .error e => ({ baseResult info with message := errorPrefixMsg e }, [])
        | .ok d0 =>
          match d0.connect w.connectOutcome with
          | .error e =>
              ({ baseResult info with message := errorPrefixMsg e }, [.connectCall])
          | .ok _ =>
            if !optListTruthy cc then
              ({ baseResult info with
                   message := "Error: No configuration commands or template provided" },
               [.connectCall])
            else
              ({ baseResult info with
                   output := "DRY RUN - No changes applied"
                 , success := true
                 , message := "Configuration applied successfully" },
               [.connectCall, .disconnectCall]) := by
  cases hInit : NetworkDevice.init info w.env with
  | error e =>
    simp [configure_device, configureTry, hInit]
  | ok d0 =>
    cases hConn : d0.connect w.connectOutcome with
    | error e =>
      simp [configure_device, configureTry, hInit, hConn, prepareStage, optStrTruthy]
    | ok d1 =>
      by_cases hcc : optListTruthy cc
      · simp [configure_device, configureTry, hInit, hConn, prepareStage, optStrTruthy,
          applyStage, validationStage, hdry, hcc]
      · simp [configure_device, configureTry, hInit, hConn, prepareStage, optStrTruthy,
          applyStage, validationStage, hdry, hcc, errorPrefixMsg, PyError.str]

/-! ### Claim theorems -/

/-- C10: a `NetworkDevice` with no active connection raises
`DeviceConnectionError` from `send_command`, `send_config_set` and
`save_config` instead of attempting I/O, reports `is_alive` as `false`
without raising, and `disconnect` is an idempotent no-op that never raises
(after any disconnect the connection is reset to `none`, so a second
disconnect does nothing). -/
theorem disconnected_device_behavior (d : NetworkDevice)
    (hd : d.connection = none) :
    (∀ cmd, d.send_command cmd
        = .error (.deviceConnectionError ("Not connected to " ++ d.host)))
    ∧ (∀ cmds, d.send_config_set cmds
        = .error (.deviceConnectionError ("Not connected to " ++ d.host)))
    ∧ d.save_config = .error (.deviceConnectionError ("Not connected to " ++ d.host))
    ∧ d.is_alive = false
    ∧ d.disconnect = d
    ∧ (∀ a : NetworkDevice, (a.disconnect).connection = none
        ∧ a.disconnect.disconnect = a.disconnect) := by
  refine ⟨?_, ?_, ?_, ?_, ?_, ?_⟩
  · intro cmd
    simp [NetworkDevice.send_command, hd]
  · intro cmds
    simp [NetworkDevice.send_config_set, hd]
  · simp [NetworkDevice.save_config, hd]
  · simp [NetworkDevice.is_alive, hd]
  · simp [NetworkDevice.disconnect, hd]
  · intro a
    cases h : a.connection <;> simp [NetworkDevice.disconnect, h]

/-- Witness for C10 at a concrete disconnected device. -/
theorem disconnected_device_behavior_witness :
    deviceDisc.send_command "show version"
        = .error (.deviceConnectionError "Not connected to r1")
    ∧ deviceDisc.save_config = .error (.deviceConnectionError "Not connected to r1")
    ∧ deviceDisc.is_alive = false
    ∧ deviceDisc.disconnect = deviceDisc := by
  have h := disconnected_device_behavior deviceDisc rfl
  exact ⟨h.1 "show version", h.2.2.1, h.2.2.2.1, h.2.2.2.2.1⟩

/-- C8: `verify_ip_connectivity` succeeds exactly when a success-rate
percentage `P` parses from the ping output via `Success rate is (\d+)
percent` and `P ≥ 80`; a parsed percentage below 80 and an unparseable
output both produce a `ValidationError` (a classified failure, never an
unclassified crash). -/
theorem verify_ip_connectivity_spec (d : NetworkDevice) (conn : NetmikoConn)
    (target_ip : String) (count : Nat) (output : String)
    (hconn : d.connection = some conn)
    (hcmd : conn.sendCommandOutcome ("ping " ++ target_ip ++ " repeat " ++ toString count)
        = .ok output) :
    (verify_ip_connectivity d target_ip count = .ok true ↔
      ∃ p, searchPing output.data = some p ∧ 80 ≤ p)
    ∧ (∀ p, searchPing output.data = some p → p < 80 →
        verify_ip_connectivity d target_ip count
          = .error (.validationError ("Ping to " ++ target_ip ++ " failed ("
              ++ toString p ++ "%) from " ++ d.host)))
    ∧ (searchPing output.data = none →
        verify_ip_connectivity d target_ip count
          = .error (.validationError ("Could not parse ping results for "
              ++ target_ip ++ " from " ++ d.host))) := by
  have hsend : d.send_command ("ping " ++ target_ip ++ " repeat " ++ toString count)
      = .ok output := by
    simp [NetworkDevice.send_command, hconn, hcmd]
  have hv : verify_ip_connectivity d target_ip count
      = (match searchPing output.data with
         | some success_rate =>
           if 80 ≤ success_rate then .ok true
           else
             .error (.validationError ("Ping to " ++ target_ip ++ " failed ("
               ++ toString success_rate ++ "%) from " ++ d.host))
         | none =>
             .error (.validationError ("Could not parse ping results for "
               ++ target_ip ++ " from " ++ d.host))) := by
    simp only [verify_ip_connectivity, hsend]
  refine ⟨⟨?_, ?_⟩, ?_, ?_⟩
  · intro h
    rw [hv] at h
    cases hs : searchPing output.data with
    | none => rw [hs] at h; simp at h
    | some p =>
      rw [hs] at h
      by_cases hp : 80 ≤ p
      · exact ⟨p, rfl, hp⟩
      · simp [hp] at h
  · rintro ⟨p, hp, hge⟩
    rw [hv, hp]
    simp [hge]
  · intro p hp hlt
    rw [hv, hp]
    simp [Nat.not_le.mpr hlt]
  · intro hnone
    rw [hv, hnone]

/-- Witness for C8 at the spec's three example outputs. -/
theorem verify_ip_connectivity_spec_witness :
    verify_ip_connectivity (devEcho "Success rate is 100 percent") "10.0.0.1" 3 = .ok true
    ∧ verify_ip_connectivity (devEcho "Success rate is 40 percent") "10.0.0.1" 3
        = .error (.validationError "Ping to 10.0.0.1 failed (40%) from r1")
    ∧ verify_ip_connectivity (devEcho "garbage") "10.0.0.1" 3
        = .error (.validationError "Could not parse ping results for 10.0.0.1 from r1") := by
  refine ⟨?_, ?_, ?_⟩
  · exact (verify_ip_connectivity_spec (devEcho "Success rate is 100 percent")
      (connEcho "Success rate is 100 percent") "10.0.0.1" 3 "Success rate is 100 percent"
      rfl rfl).1.mpr ⟨100, by decide, by decide⟩
  · exact (verify_ip_connectivity_spec (devEcho "Success rate is 40 percent")
      (connEcho "Success rate is 40 percent") "10.0.0.1" 3 "Success rate is 40 percent"
      rfl rfl).2.1 40 (by decide) (by decide)
  · exact (verify_ip_connectivity_spec (devEcho "garbage")
      (connEcho "garbage") "10.0.0.1" 3 "garbage" rfl rfl).2.2 (by decide)

/-- C9: `get_device_info` never raises: with both underlying commands
succeeding, every field whose pattern is absent from the supplied outputs
defaults to `"Unknown"` (so with no matches at all the mapping is hostname
`"Unknown"`, version `"Unknown"`, uptime `"Unknown"`); when an underlying
command itself fully fails, the empty mapping is returned instead of a
raise. -/
theorem get_device_info_defaults (d : NetworkDevice) (conn : NetmikoConn)
    (hconn : d.connection = some conn) :
    (∀ vOut hOut, conn.sendCommandOutcome "show version" = .ok vOut →
      conn.sendCommandOutcome "show running-config | include hostname" = .ok hOut →
      ∃ i, get_device_info d = .info i
        ∧ (searchGroup "hostname ".data nonWhitespace hOut.data = none →
            i.hostname = "Unknown")
        ∧ (searchGroup "Version ".data nonWhitespace vOut.data = none →
            i.version = "Unknown")
        ∧ (searchGroup "uptime is ".data notNewline vOut.data = none →
            i.uptime = "Unknown"))
    ∧ (∀ vOut hOut, conn.sendCommandOutcome "show version" = .ok vOut →
      conn.sendCommandOutcome "show running-config | include hostname" = .ok hOut →
      searchGroup "hostname ".data nonWhitespace hOut.data = none →
      searchGroup "Version ".data nonWhitespace vOut.data = none →
      searchGroup "uptime is ".data notNewline vOut.data = none →
      get_device_info d = .info (unknownInfo d.device_type d.host))
    ∧ (∀ e, conn.sendCommandOutcome "show version" = .error e →
        get_device_info d = .empty)
    ∧ (∀ vOut e, conn.sendCommandOutcome "show version" = .ok vOut →
        conn.sendCommandOutcome "show running-config | include hostname" = .error e →
        get_device_info d = .empty) := by
  refine ⟨?_, ?_, ?_, ?_⟩
  · intro vOut hOut hv hh
    have hinfo : get_device_info d = .info
        { hostname :=
            match searchGroup "hostname ".data nonWhitespace hOut.data with
            | some g => String.mk g
            | none => "Unknown"
        , version :=
            match searchGroup "Version ".data nonWhitespace vOut.data with
            | some g => String.mk g
            | none => "Unknown"
        , uptime :=
            match searchGroup "uptime is ".data notNewline vOut.data with
            | some g => String.mk g
            | none => "Unknown"
        , device_type := d.device_type, host := d.host } := by
      simp [get_device_info, NetworkDevice.send_command, hconn, hv, hh]
    refine ⟨_, hinfo, ?_, ?_, ?_⟩
    · intro h1
      simp [h1]
    · intro h2
      simp [h2]
    · intro h3
      simp [h3]
  · intro vOut hOut hv hh h1 h2 h3
    simp [get_device_info, NetworkDevice.send_command, hconn, hv, hh, h1, h2, h3,
      unknownInfo]
  · intro e he
    simp [get_device_info, NetworkDevice.send_command, hconn, he]
  · intro vOut e hv he
    simp [get_device_info, NetworkDevice.send_command, hconn, hv, he]

/-- Witness for C9: outputs matching none of the three patterns give the
all-`"Unknown"` mapping, and a partially-matched pair of outputs (version
present, hostname and uptime absent) defaults exactly the unmatched
fields. -/
theorem get_device_info_defaults_witness :
    (get_device_info (devEcho "") = .info (unknownInfo "cisco_ios" "r1"))
    ∧ (∃ i, get_device_info (devEcho "Version 15.2") = .info i
        ∧ i.hostname = "Unknown" ∧ i.uptime = "Unknown") := by
  constructor
  · exact (get_device_info_defaults (devEcho "") (connEcho "") rfl).2.1 "" "" rfl rfl
      (by decide) (by decide) (by decide)
  · obtain ⟨i, hi, h1, h2, h3⟩ :=
      (get_device_info_defaults (devEcho "Version 15.2") (connEcho "Version 15.2")
        rfl).1 "Version 15.2" "Version 15.2" rfl rfl
    exact ⟨i, hi, h1 (by decide), h3 (by decide)⟩

/-- C1: for every batch operation (`configure_multiple_devices` or
`backup_configs`, sequential or parallel, for any device list including the
empty one, and regardless of how many per-device operations fail), the
returned summary satisfies `successful + failed = total_devices`, with
`total_devices` the length of the input device list.  In parallel mode the
completion order is any permutation of the submitted task indices. -/
theorem batch_count_invariant (task : ConfigurationTask) (w : Nat → DeviceWorld)
    (bw : Nat → BackupWorld) (config_commands : Option (List String))
    (template_name : Option String) (template_vars_list : Option (List TVars))
    (save_config validate_after parallel : Bool) (backup_dir : String)
    (completionOrder : List Nat)
    (horder : completionOrder.Perm (List.range task.devices.length)) :
    ((configure_multiple_devices task w config_commands template_name
        template_vars_list save_config validate_after parallel completionOrder).successful
      + (configure_multiple_devices task w config_commands template_name
          template_vars_list save_config validate_after parallel completionOrder).failed
      = (configure_multiple_devices task w config_commands template_name
          template_vars_list save_config validate_after parallel completionOrder).total_devices
      ∧ (configure_multiple_devices task w config_commands template_name
          template_vars_list save_config validate_after parallel completionOrder).total_devices
        = task.devices.length)
    ∧ ((backup_configs task bw backup_dir parallel completionOrder).successful
      + (backup_configs task bw backup_dir parallel completionOrder).failed
      = (backup_configs task bw backup_dir parallel completionOrder).total_devices
      ∧ (backup_configs task bw backup_dir parallel completionOrder).total_devices
        = task.devices.length) := by
  have hlen : completionOrder.length = task.devices.length := by
    simpa using horder.length_eq
  refine ⟨⟨?_, rfl⟩, ⟨?_, rfl⟩⟩
  · cases parallel with
    | false =>
      simp only [configure_multiple_devices, Bool.false_eq_true, if_false, mkSummary]
      exact counts_formula _ _ _ (by simp)
    | true =>
      simp only [configure_multiple_devices, if_true, mkSummary]
      exact counts_formula _ _ _ (by simp [collectCompleted, hlen])
  · cases parallel with
    | false =>
      simp only [backup_configs, Bool.false_eq_true, if_false]
      exact counts_formula _ _ _ (by simp)
    | true =>
      simp only [backup_configs, if_true]
      exact counts_formula _ _ _ (by simp [hlen])

/-- Witness for C1: a parallel one-device configure batch and backup batch. -/
theorem batch_count_invariant_witness :
    ((configure_multiple_devices taskR1 (fun _ => worldAllOk) (some ["a"]) none none
        true true true [0]).successful
      + (configure_multiple_devices taskR1 (fun _ => worldAllOk) (some ["a"]) none none
          true true true [0]).failed
      = (configure_multiple_devices taskR1 (fun _ => worldAllOk) (some ["a"]) none none
          true true true [0]).total_devices)
    ∧ ((backup_configs taskR1 (fun _ => backupWOk) "/tmp/backups" true [0]).successful
      + (backup_configs taskR1 (fun _ => backupWOk) "/tmp/backups" true [0]).failed
      = (backup_configs taskR1 (fun _ => backupWOk) "/tmp/backups" true [0]).total_devices) := by
  have h := batch_count_invariant taskR1 (fun _ => worldAllOk) (fun _ => backupWOk)
    (some ["a"]) none none true true true "/tmp/backups" [0] (by decide)
  exact ⟨h.1.1, h.2.1⟩

/-- C5: with `parallel` false, `configure_multiple_devices` produces a
results sequence whose `i`-th entry is the result of configuring the `i`-th
input device (result order equals input device order), and for the empty
device list the summary is still well-formed with empty results and zero
counts. -/
theorem sequential_results_order (task : ConfigurationTask) (w : Nat → DeviceWorld)
    (config_commands : Option (List String)) (template_name : Option String)
    (template_vars_list : Option (List TVars)) (save_config validate_after : Bool)
    (completionOrder : List Nat) :
    ((configure_multiple_devices task w config_commands template_name
        template_vars_list save_config validate_after false completionOrder).results.length
      = task.devices.length)
    ∧ (∀ i, i < task.devices.length →
        (configure_multiple_devices task w config_commands template_name
          template_vars_list save_config validate_after false completionOrder).results[i]?
          = some ((configure_device task (w i) (task.devices.getD i default)
              config_commands template_name (tvarsFor template_vars_list i)
              save_config validate_after).1))
    ∧ (task.devices = [] →
        configure_multiple_devices task w config_commands template_name
          template_vars_list save_config validate_after false completionOrder
          = { total_devices := 0, successful := 0, failed := 0, results := [] }) := by
  refine ⟨?_, ?_, ?_⟩
  · simp [configure_multiple_devices, mkSummary]
  · intro i hi
    simp [configure_multiple_devices, mkSummary, List.getElem?_map,
      List.getElem?_range hi, deviceResult]
  · intro hdev
    simp [configure_multiple_devices, mkSummary, hdev]

/-- Witness for C5 at a one-device batch and the empty batch. -/
theorem sequential_results_order_witness :
    ((configure_multiple_devices taskR1 (fun _ => worldAllOk) (some ["a"]) none none
        true true false []).results[0]?
      = some ((configure_device taskR1 worldAllOk infoR1 (some ["a"]) none
          (tvarsFor none 0) true true).1))
    ∧ (configure_multiple_devices { devices := [], dry_run := false }
        (fun _ => worldAllOk) (some ["a"]) none none true true false []
        = { total_devices := 0, successful := 0, failed := 0, results := [] }) := by
  constructor
  · exact (sequential_results_order taskR1 (fun _ => worldAllOk) (some ["a"]) none none
      true true []).2.1 0 (by decide)
  · exact (sequential_results_order { devices := [], dry_run := false }
      (fun _ => worldAllOk) (some ["a"]) none none true true []).2.2 rfl

/-- C2 (code bug): `configure_device` does NOT release the session on every
exit path.  Lines 134-144 of `tasks.py` convert a raised error into a failed
result, but `device.disconnect()` (line 128) sits inside the `try` block
after the failing stage instead of in a `finally` clause, so on this input —
connect succeeds, then `send_config_set` raises — the function returns with
the session still open: `disconnect` is never invoked. -/
theorem configure_device_leaks_session_on_failure :
    ((configure_device taskR1 worldApplyFails infoR1 (some ["hostname X"]) none none
        true true).1.success = false)
    ∧ ((configure_device taskR1 worldApplyFails infoR1 (some ["hostname X"]) none none
        true true).1.message
      = "Connection error: Error applying configuration on r1: boom")
    ∧ SessionEvent.connectCall
        ∈ (configure_device taskR1 worldApplyFails infoR1 (some ["hostname X"]) none none
            true true).2
    ∧ SessionEvent.disconnectCall
        ∉ (configure_device taskR1 worldApplyFails infoR1 (some ["hostname X"]) none none
            true true).2 := by
  decide

/-- C3: `configure_device` never propagates an exception: whenever the
pipeline (`configureTry`) raises, the returned result has `success` false
and a message prefixed by error kind — `Connection error:` for
connection-kind errors, `Validation error:` for validation-kind errors, and
the generic `Error:` prefix otherwise.  (That the function always returns an
`OperationResult` is expressed by `configure_device` being total.) -/
theorem configure_device_never_propagates (task : ConfigurationTask)
    (w : DeviceWorld) (device_info : DeviceInfoDict) (cc : Option (List String))
    (tn : Option String) (tv : Option TVars) (sc va : Bool)
    (r : OperationResult) (e : PyError)
    (h : (configureTry task w device_info cc tn tv sc va).1 = .error (r, e)) :
    ((configure_device task w device_info cc tn tv sc va).1.success = false)
    ∧ ((configure_device task w device_info cc tn tv sc va).1.message
        = errorPrefixMsg e)
    ∧ (e.isConnectionKind = true →
        strHasPref "Connection error: "
          (configure_device task w device_info cc tn tv sc va).1.message)
    ∧ (e.isValidationKind = true →
        strHasPref "Validation error: "
          (configure_device task w device_info cc tn tv sc va).1.message)
    ∧ (e.isConnectionKind = false → e.isValidationKind = false →
        strHasPref "Error: "
          (configure_device task w device_info cc tn tv sc va).1.message) := by
  have hs := configureTry_error_success task w device_info cc tn tv sc va r e h
  have hd := configure_device_of_error task w device_info cc tn tv sc va r e h
  rw [hd]
  refine ⟨by simpa using hs, rfl, ?_, ?_, ?_⟩
  · intro hk
    cases e <;> first
      | exact ⟨_, rfl⟩
      | simp [PyError.isConnectionKind] at hk
  · intro hk
    cases e <;> first
      | exact ⟨_, rfl⟩
      | simp [PyError.isValidationKind] at hk
  · intro hk1 hk2
    cases e with
    | deviceConnectionError m => simp [PyError.isConnectionKind] at hk1
    | validationError m => simp [PyError.isValidationKind] at hk2
    | valueError m => exact ⟨m, rfl⟩
    | keyError k => exact ⟨PyError.str (.keyError k), rfl⟩
    | otherError m => exact ⟨m, rfl⟩

/-- Witness for C3 at a device whose connect attempt times out. -/
theorem configure_device_never_propagates_witness :
    ((configure_device taskR1 worldConnectFails infoR1 (some ["a"]) none none
        true true).1.success = false)
    ∧ strHasPref "Connection error: "
        (configure_device taskR1 worldConnectFails infoR1 (some ["a"]) none none
          true true).1.message := by
  have h := configure_device_never_propagates taskR1 worldConnectFails infoR1
    (some ["a"]) none none true true (baseResult infoR1)
    (.deviceConnectionError "Connection timeout to r1: t") rfl
  exact ⟨h.1, h.2.2.1 rfl⟩

/-- C4 counterexample: a dry-run configure with the `Literal` payload
`["a", "b"]` produces the fixed output `"DRY RUN - No changes applied"`,
which does not list the supplied commands — the command `"b"` does not even
occur in it — refuting the claim that the output lists exactly the supplied
commands in their given order. -/
theorem dry_run_output_omits_commands :
    ((configure_device taskR1Dry worldAllOk infoR1 (some ["a", "b"]) none none
        true true).1.output = "DRY RUN - No changes applied")
    ∧ containsSub (configure_device taskR1Dry worldAllOk infoR1 (some ["a", "b"])
        none none true true).1.output.data "b".data = false := by
  decide

/-- C4 (amended): for every dry-run configure with a `Literal` payload, the
session's config-apply (`send_config_set`) and save (`save_config`)
operations are never invoked, and whenever the operation succeeds its output
is the fixed string `"DRY RUN - No changes applied"` — it contains the
dry-run marker `"DRY RUN"` but does not list the supplied commands. -/
theorem dry_run_no_apply_and_marker (task : ConfigurationTask) (w : DeviceWorld)
    (info : DeviceInfoDict) (cc : Option (List String)) (tv : Option TVars)
    (sc va : Bool) (hdry : task.dry_run = true) :
    (∀ cmds, SessionEvent.sendConfigSetCall cmds
        ∉ (configure_device task w info cc none tv sc va).2)
    ∧ (SessionEvent.saveConfigCall
        ∉ (configure_device task w info cc none tv sc va).2)
    ∧ ((configure_device task w info cc none tv sc va).1.success = true →
        (configure_device task w info cc none tv sc va).1.output
            = "DRY RUN - No changes applied"
        ∧ containsSub (configure_device task w info cc none tv sc va).1.output.data
            "DRY RUN".data = true) := by
  have hall := configure_device_dry_literal task w info cc tv sc va hdry
  have hmarker : containsSub "DRY RUN - No changes applied".data "DRY RUN".data
      = true := by decide
  cases hInit : NetworkDevice.init info w.env with
  | error e =>
    refine ⟨fun cmds => by simp [hall, hInit], by simp [hall, hInit],
      fun hsucc => ?_⟩
    rw [hall] at hsucc
    simp [hInit, baseResult] at hsucc
  | ok d0 =>
    cases hConn : d0.connect w.connectOutcome with
    | error e =>
      refine ⟨fun cmds => by simp [hall, hInit, hConn], by simp [hall, hInit, hConn],
        fun hsucc => ?_⟩
      rw [hall] at hsucc
      simp [hInit, hConn, baseResult] at hsucc
    | ok d1 =>
      by_cases hcc : optListTruthy cc
      · refine ⟨fun cmds => by simp [hall, hInit, hConn, hcc],
          by simp [hall, hInit, hConn, hcc], fun hsucc => ?_⟩
        exact ⟨by simp [hall, hInit, hConn, hcc],
          by simp [hall, hInit, hConn, hcc, hmarker]⟩
      · refine ⟨fun cmds => by simp [hall, hInit, hConn, hcc],
          by simp [hall, hInit, hConn, hcc], fun hsucc => ?_⟩
        rw [hall] at hsucc
        simp [hInit, hConn, hcc, baseResult] at hsucc

/-- Witness for C4 (amended) at a concrete successful dry run. -/
theorem dry_run_no_apply_and_marker_witness :
    (SessionEvent.sendConfigSetCall ["a", "b"]
        ∉ (configure_device taskR1Dry worldAllOk infoR1 (some ["a", "b"]) none none
            true true).2)
    ∧ ((configure_device taskR1Dry worldAllOk infoR1 (some ["a", "b"]) none none
        true true).1.output = "DRY RUN - No changes applied") := by
  have h := dry_run_no_apply_and_marker taskR1Dry worldAllOk infoR1 (some ["a", "b"])
    none true true rfl
  exact ⟨h.1 ["a", "b"], (h.2.2 (by decide)).1⟩

/-- C6 counterexample: a device operation with a template name but no
variable mapping (and no literal commands), against a world whose renderer
would succeed, never invokes the renderer — the trace holds only the connect
call — and fails with the no-configuration error, refuting the claim that
the template is still resolved by rendering it with an empty mapping. -/
theorem template_without_vars_not_rendered :
    ((configure_device taskR1 worldAllOk infoR1 none (some "t.j2") none
        true true).2 = [SessionEvent.connectCall])
    ∧ ((configure_device taskR1 worldAllOk infoR1 none (some "t.j2") none
        true true).1.success = false)
    ∧ ((configure_device taskR1 worldAllOk infoR1 none (some "t.j2") none
        true true).1.message
      = "Error: No configuration commands or template provided") := by
  decide

/-- C6 (amended): the template branch runs only when BOTH a template name
and a non-empty per-device variable mapping are supplied.  When the mapping
is absent or empty the renderer is never invoked, and if no literal commands
were supplied either (and the session opened), the operation fails with
`Error: No configuration commands or template provided`. -/
theorem template_skipped_without_vars (task : ConfigurationTask) (w : DeviceWorld)
    (info : DeviceInfoDict) (cc : Option (List String)) (tn : Option String)
    (tv : Option TVars) (sc va : Bool)
    (htv : optTVarsTruthy tv = false) :
    (∀ name vars, SessionEvent.renderCall name vars
        ∉ (configure_device task w info cc tn tv sc va).2)
    ∧ (optListTruthy cc = false →
        ∀ d0 d1, NetworkDevice.init info w.env = .ok d0 →
          d0.connect w.connectOutcome = .ok d1 →
          ((configure_device task w info cc tn tv sc va).1.success = false
            ∧ (configure_device task w info cc tn tv sc va).1.message
              = "Error: No configuration commands or template provided")) := by
  have hprep : prepareStage w cc tn tv = (.ok cc, []) := by
    simp [prepareStage, htv]
  constructor
  · intro name vars
    rw [configure_device_events]
    cases hInit : NetworkDevice.init info w.env with
    | error e => simp [configureTry, hInit]
    | ok d0 =>
      cases hConn : d0.connect w.connectOutcome with
      | error e => simp [configureTry, hInit, hConn, hprep]
      | ok d1 =>
        by_cases hcc : optListTruthy cc
        · cases hApply : (applyStage task d1 (cc.getD []) sc (baseResult info)).1 with
          | error re =>
            simp [configureTry, hInit, hConn, hprep, hcc, hApply,
              renderCall_not_in_applyStage_events]
          | ok r1 =>
            cases hVal : (validationStage task d1 va r1).1 with
            | error re =>
              simp [configureTry, hInit, hConn, hprep, hcc, hApply, hVal,
                renderCall_not_in_applyStage_events,
                renderCall_not_in_validationStage_events]
            | ok r2 =>
              simp [configureTry, hInit, hConn, hprep, hcc, hApply, hVal,
                renderCall_not_in_applyStage_events,
                renderCall_not_in_validationStage_events]
        · simp [configureTry, hInit, hConn, hprep, hcc]
  · intro hcc d0 d1 hInit hConn
    have hTry : (configureTry task w info cc tn tv sc va).1
        = .error (baseResult info,
            .valueError "No configuration commands or template provided") := by
      simp [configureTry, hInit, hConn, hprep, hcc]
    have hd := configure_device_of_error task w info cc tn tv sc va _ _ hTry
    rw [hd]
    exact ⟨rfl, rfl⟩

/-- Witness for C6 (amended) at a concrete device operation. -/
theorem template_skipped_without_vars_witness :
    (SessionEvent.renderCall "t.j2" []
        ∉ (configure_device taskR1 worldAllOk infoR1 none (some "t.j2") none
            true true).2)
    ∧ ((configure_device taskR1 worldAllOk infoR1 none (some "t.j2") none
        true true).1.message
      = "Error: No configuration commands or template provided") := by
  have h := template_skipped_without_vars taskR1 worldAllOk infoR1 none
    (some "t.j2") none true true rfl
  exact ⟨h.1 "t.j2" [], (h.2 rfl _ _ rfl rfl).2⟩

/-- C7: for a device whose descriptor lacks a username or password and whose
process-wide credential source also lacks one, the credential triple is
resolved before any session is opened (the trace is empty — no connect
happens), and the device's operation yields a failed result carrying the
missing-credentials configuration error (`ValueError`, surfaced under the
generic `Error:` prefix) rather than an unhandled crash, while every other
device in the same sequential batch is still processed and recorded. -/
theorem missing_credentials_isolated_failure (task : ConfigurationTask)
    (w : Nat → DeviceWorld) (cc : Option (List String)) (tn : Option String)
    (tvl : Option (List TVars)) (sc va : Bool) (i : Nat) (hostname : String)
    (hhost : (task.devices.getD i default).host = some hostname)
    (hcred : optStrTruthy (task.devices.getD i default).username = false
      ∨ optStrTruthy (task.devices.getD i default).password = false)
    (henv : optStrTruthy (w i).env.deviceUsername = false
      ∨ optStrTruthy (w i).env.devicePassword = false) :
    ((configure_device task (w i) (task.devices.getD i default) cc tn
        (tvarsFor tvl i) sc va).2 = [])
    ∧ ((configure_device task (w i) (task.devices.getD i default) cc tn
        (tvarsFor tvl i) sc va).1.success = false)
    ∧ ((configure_device task (w i) (task.devices.getD i default) cc tn
        (tvarsFor tvl i) sc va).1.message = "Error: " ++ missingCredsMsg)
    ∧ ((configure_multiple_devices task w cc tn tvl sc va false []).results.length
        = task.devices.length)
    ∧ (∀ j, j < task.devices.length →
        (configure_multiple_devices task w cc tn tvl sc va false []).results[j]?
          = some ((configure_device task (w j) (task.devices.getD j default) cc tn
              (tvarsFor tvl j) sc va).1)) := by
  set dev := task.devices.getD i default with hdev
  have hcreds : get_device_credentials (w i).env
      = .error (.valueError missingCredsMsg) := by
    rcases henv with h | h <;> simp [get_device_credentials, h]
  have hinit : NetworkDevice.init dev (w i).env
      = .error (.valueError missingCredsMsg) := by
    have hcond : (!optStrTruthy dev.username || !optStrTruthy dev.password)
        = true := by
      rcases hcred with h | h <;> simp [h]
    simp only [NetworkDevice.init, hhost]
    rw [if_pos hcond, hcreds]
  have hTry : configureTry task (w i) dev cc tn (tvarsFor tvl i) sc va
      = (.error (baseResult dev, .valueError missingCredsMsg), []) := by
    simp [configureTry, hinit]
  have hTry1 : (configureTry task (w i) dev cc tn (tvarsFor tvl i) sc va).1
      = .error (baseResult dev, .valueError missingCredsMsg) := by
    rw [hTry]
  have hd := configure_device_of_error task (w i) dev
    cc tn (tvarsFor tvl i) sc va _ _ hTry1
  refine ⟨?_, ?_, ?_, ?_, ?_⟩
  · rw [configure_device_events, hTry]
  · rw [hd]
    rfl
  · rw [hd]
    rfl
  · simp [configure_multiple_devices, mkSummary]
  · intro j hj
    simp [configure_multiple_devices, mkSummary, List.getElem?_map,
      List.getElem?_range hj, deviceResult]

/-- Witness for C7: a two-device batch whose first device lacks credentials
against an environment that provides none. -/
theorem missing_credentials_isolated_failure_witness :
    ((configure_device taskTwo worldAllOk infoNoCreds (some ["a"]) none
        (tvarsFor none 0) true true).2 = [])
    ∧ ((configure_device taskTwo worldAllOk infoNoCreds (some ["a"]) none
        (tvarsFor none 0) true true).1.message = "Error: " ++ missingCredsMsg)
    ∧ ((configure_multiple_devices taskTwo (fun _ => worldAllOk) (some ["a"]) none
        none true true false []).results.length = 2) := by
  have h := missing_credentials_isolated_failure taskTwo (fun _ => worldAllOk)
    (some ["a"]) none none true true 0 "r2" rfl (Or.inl rfl) (Or.inl rfl)
  exact ⟨h.1, h.2.2.1, h.2.2.2.1⟩

